import Mathlib

/-!
Verification development for the NASS QuickStats Boson remote provider
(`src/nass_quickstats_remote_provider/boson/provider.py`).

The Python module is shallowly embedded: every function below mirrors one
function (or one contiguous block) of `provider.py`.  Geometric primitives
(shapely geometries, `geometry.box`, `GeoSeries.intersects`) are abstracted
as parameters: a type `G` of geometries, a constructor `box` building a
geometry from bbox coordinates, and a boolean intersection test `inter`.
Python dictionaries are embedded as insertion-ordered association lists,
and mutable dict objects (needed for `create_query_list`, which appends the
same dict object repeatedly) are embedded with an explicit heap of dicts
addressed by natural-number references.  Fallible code returns
`Except PyError`.
-/

namespace BosonProvider

/-- Python exception classes that the embedded code can raise. -/
inductive PyError where
  | valueError
  | nameError
  | indexError
  | attributeError
  | typeError
  | keyError
  | jsonError
  deriving DecidableEq, Repr

/-- Values stored in an embedded Python dict: strings, integers, or
`None`/`NaN` (used for a missing state name after the left join). -/
inductive Value where
  | str : String → Value
  | int : Int → Value
  | null : Value
  deriving DecidableEq, Repr

/-- A Python dict, embedded as an insertion-ordered association list. -/
abbrev Dict := List (String × Value)

/-- `d[k] = v`: replace the value in place when the key is present
(Python dicts keep the original insertion position), append otherwise. -/
def dictSet (d : Dict) (k : String) (v : Value) : Dict :=
  if d.any (fun p => p.1 = k) then
    d.map (fun p => if p.1 = k then (k, v) else p)
  else
    d ++ [(k, v)]

/-- `d.update(e)`: set every key of `e` in `d`, in order. -/
def dictUpdate (d e : Dict) : Dict :=
  e.foldl (fun acc p => dictSet acc p.1 p.2) d

/-- `d.get(k)` as an `Option`. -/
def dictGet (d : Dict) (k : String) : Option Value :=
  (d.find? (fun p => p.1 = k)).map (fun p => p.2)

/-- One row of the static county boundary table (`counties.geoparquet`):
state FIPS code (possibly padded with whitespace), county name, the county
ordering identifier `COUNTYNS`, and the county polygon. -/
structure CountyRow (G : Type) where
  STATEFP : String
  NAME : String
  COUNTYNS : String
  geom : G
  deriving DecidableEq, Repr

/-- One row of the static state boundary table (`states.geoparquet`). -/
structure StateRow (G : Type) where
  STATEFP : String
  NAME : String
  geom : G
  deriving DecidableEq, Repr

/-- The argument accepted by `get_counties_from_geometry`: a Python list, a
tuple, a shapely geometry, or any other object (line 61/66 type dispatch). -/
inductive GeomInput (G : Type) where
  | list : List Int → GeomInput G
  | tuple : List Int → GeomInput G
  | geom : G → GeomInput G
  deriving DecidableEq, Repr

/-- An input that is neither a list, a tuple, nor a shapely geometry is
represented separately (it carries no data the function could use). -/
inductive AnyInput (G : Type) where
  | geomLike : GeomInput G → AnyInput G
  | other : AnyInput G
  deriving DecidableEq, Repr

/-- One output row of the region resolver: index key `(county_name,
state_name)` plus the retained columns `geometry` and `COUNTYNS`.  The
state name is an `Option` because the pandas left join leaves `NaN` when no
state row matches the county's code. -/
structure OutRow (G : Type) where
  county_name : String
  state_name : Option String
  geom : G
  COUNTYNS : String
  deriving DecidableEq, Repr

/-- Result of `get_counties_from_geometry`: either the placeholder
`GeoDataFrame(columns=["geometry", "id"])` returned when no county
intersects (line 72), or the joined and sorted table. -/
inductive CountiesResult (G : Type) where
  | emptyTable : List String → CountiesResult G
  | table : List (OutRow G) → CountiesResult G
  deriving DecidableEq, Repr

/-- The rows of a `CountiesResult`; the empty placeholder table has none. -/
def resultRows {G : Type} : CountiesResult G → List (OutRow G)
  | .emptyTable _ => []
  | .table rows => rows

/-- Python `str.strip()` with no argument: remove leading and trailing
whitespace (used for `.str.strip()` on the `STATEFP` columns,
lines 79-80). -/
def pyStrip (s : String) : String :=
  ⟨((s.data.dropWhile Char.isWhitespace).reverse.dropWhile
      Char.isWhitespace).reverse⟩

/-- Lexicographic order on codepoint sequences, the order Python and
pandas use to compare strings. -/
def natListLe : List Nat → List Nat → Bool
  | [], _ => true
  | _ :: _, [] => false
  | a :: as, b :: bs =>
      if a < b then true else if b < a then false else natListLe as bs

/-- Python `a <= b` on strings: codepoint-lexicographic comparison. -/
def strLeB (a b : String) : Bool :=
  natListLe (a.data.map Char.toNat) (b.data.map Char.toNat)

/-- Insert into a list sorted by a `String` key (helper for the embedding
of `sort_values(by=["COUNTYNS"])`). -/
def insertByKey {α : Type} (k : α → String) (a : α) : List α → List α
  | [] => [a]
  | b :: l => if strLeB (k a) (k b) then a :: b :: l else b :: insertByKey k a l

/-- Sort a list by a `String` key (`sort_values(by=["COUNTYNS"])`, line 88;
the claims need sortedness and membership, not stability). -/
def sortByKey {α : Type} (k : α → String) : List α → List α
  | [] => []
  | a :: l => insertByKey k a (sortByKey k l)

/-- `Boundaries.intersects` (lines 31-33): the sub-table of rows whose
geometry intersects `g`, in table order. -/
def countiesIntersects {G : Type} (inter : G → G → Bool)
    (df : List (CountyRow G)) (g : G) : List (CountyRow G) :=
  df.filter (fun r => inter r.geom g)

/-- `Boundaries.intersects` for the state table. -/
def statesIntersects {G : Type} (inter : G → G → Bool)
    (df : List (StateRow G)) (g : G) : List (StateRow G) :=
  df.filter (fun r => inter r.geom g)

/-- The pandas left join of the county table on the state table after both
are indexed by (stripped) `STATEFP` (lines 83-85): each county row joins
with every matching state row, and keeps `NaN` for the state name when no
state row matches. -/
def joinOnStatefp {G : Type} (cdf : List (CountyRow G))
    (sdf : List (StateRow G)) : List (OutRow G) :=
  cdf.flatMap (fun c =>
    let ms := sdf.filter (fun s => s.STATEFP = c.STATEFP)
    match ms with
    | [] => [⟨c.NAME, none, c.geom, c.COUNTYNS⟩]
    | _ => ms.map (fun s => ⟨c.NAME, some s.NAME, c.geom, c.COUNTYNS⟩))

/-- The body of `get_counties_from_geometry` after the input has been
turned into a geometry (lines 69-93). -/
def countiesFromGeom {G : Type} (inter : G → G → Bool)
    (counties : List (CountyRow G)) (states : List (StateRow G))
    (g : G) : CountiesResult G :=
  let counties_df := countiesIntersects inter counties g
  if counties_df.isEmpty then
    .emptyTable ["geometry", "id"]
  else
    let states_df := statesIntersects inter states g
    -- lines 79-80: strip the whitespace from STATEFP in both tables
    let counties_df := counties_df.map (fun c => { c with STATEFP := pyStrip c.STATEFP })
    let states_df := states_df.map (fun s => { s with STATEFP := pyStrip s.STATEFP })
    let joined := joinOnStatefp counties_df states_df
    .table (sortByKey (fun r => r.COUNTYNS) joined)

/-- `get_counties_from_geometry` (lines 49-93), with the line 61-67 input
dispatch: a list or tuple must have exactly 4 coordinates and is turned
into `box(*geom)`; anything that is not a list, tuple or geometry raises
`ValueError`. -/
def get_counties_from_geometry {G : Type} (inter : G → G → Bool)
    (box : List Int → G) (counties : List (CountyRow G))
    (states : List (StateRow G)) (input : AnyInput G) :
    Except PyError (CountiesResult G) :=
  match input with
  | .geomLike (.list l) =>
      if l.length ≠ 4 then .error .valueError
      else .ok (countiesFromGeom inter counties states (box l))
  | .geomLike (.tuple l) =>
      if l.length ≠ 4 then .error .valueError
      else .ok (countiesFromGeom inter counties states (box l))
  | .geomLike (.geom g) => .ok (countiesFromGeom inter counties states g)
  | .other => .error .valueError

/-! ## `create_query_list` (lines 101-182)

Python dicts are mutable heap objects: `query_params` is created once per
county row (line 167) and appended to `query_list` once per year
(line 180), so all entries of a given row alias one object, which the
inner loop keeps mutating.  The embedding makes the heap explicit: dict
objects live in `QState.heap`, `query_list` is a list of references, and
`snaps` records the value each appended dict had at the moment of its
append (used to state the frame property of the spec). -/

/-- Loop state of `create_query_list`: the heap of dict objects, the
`query_list` of references into it, and the append-time snapshots. -/
structure QState where
  heap : List Dict
  qlist : List Nat
  snaps : List Dict
  deriving DecidableEq, Repr

/-- The inner `for year_index, year in enumerate(years_range)` loop
(lines 177-180) for the row dict at heap address `ref`: mutate the dict's
`year` and `query_index` in place, then append the reference. -/
def innerYearLoop (years : List Int) (row_index ref : Nat)
    (s : QState) : QState :=
  years.enum.foldl
    (fun s p =>
      let d := s.heap.getD ref []
      let d := dictSet d "year" (.int p.2)
      let d := dictSet d "query_index"
        (.int ((row_index * years.length + p.1 : Nat) : Int))
      { heap := s.heap.set ref d,
        qlist := s.qlist ++ [ref],
        snaps := s.snaps ++ [d] })
    s

/-- The outer `for row_index, row in counties_gdf.reset_index().iterrows()`
loop (lines 166-180).  Each row allocates a fresh dict with
`county_name`, `state_name`, `sector = "CROPS"` and, when a filter was
given, the filter-derived parameters (lines 167-175). -/
def queryLoop (rows : List (String × Value)) (years : List Int)
    (filter_params : Option Dict) : QState :=
  rows.enum.foldl
    (fun s p =>
      let d : Dict := dictSet [] "county_name" (.str p.2.1)
      let d := dictSet d "state_name" p.2.2
      let d := dictSet d "sector" (.str "CROPS")
      let d := match filter_params with
        | some fp => dictUpdate d fp
        | none => d
      let ref := s.heap.length
      innerYearLoop years p.1 ref { s with heap := s.heap ++ [d] })
    ⟨[], [], []⟩

/-- `reset_index().iterrows()` applied to the region resolver's result:
the `(county_name, state_name)` columns of each row, with a `NaN`
(`Value.null`) state name when the left join found no state. -/
def gdfRows {G : Type} (res : CountiesResult G) : List (String × Value) :=
  (resultRows res).map (fun r =>
    (r.county_name, match r.state_name with
      | some s => Value.str s
      | none => Value.null))

/-- `list(range(start_year, end_year + 1))` (line 154). -/
def yearsList (start_year end_year : Int) : List Int :=
  (List.range (end_year + 1 - start_year).toNat).map
    (fun i => start_year + (i : Int))

/-- The geometry selection of `create_query_list` (lines 131-141): bbox
takes precedence, then `intersects`, then the whole-US default box. -/
def selectGeom {G : Type} (box : List Int → G) (usBox : G)
    (bbox : List Int) (intersectsArg : Option G) : G :=
  if ¬ bbox.isEmpty then box bbox
  else match intersectsArg with
    | some g => g
    | none => usBox

/-- `create_query_list` (lines 101-182), up to and including the loop
state.  Arguments: the abstract geometry primitives, the two boundary
tables, then the Python parameters `bbox`, `datetime` (embedded by the
years of its entries), `intersects`, and the filter, embedded by the
result of the external converter `cql2_to_query_params(filter)` (an
`Option` that is `none` when no filter was given, since `if filter:`
guards both the conversion and the use).  `usBox` is the default
whole-US box of line 141.

The datetime handling (lines 148-154): `datetime[0]`/`datetime[1]` raise
`IndexError` on a 1-element list, and an empty `datetime` leaves
`years_range` unassigned, so the first inner-loop entry (line 177) raises
`NameError` — unless no county row exists, in which case the loop body
never runs.  The unused `api_params` of lines 119-125 is omitted: it is
dead local state. -/
def create_query_list_state {G : Type} (inter : G → G → Bool)
    (box : List Int → G) (usBox : G) (counties : List (CountyRow G))
    (states : List (StateRow G)) (bbox : List Int)
    (datetime : List Int) (intersectsArg : Option G)
    (filter_params : Option Dict) : Except PyError QState :=
  let geom : G := selectGeom box usBox bbox intersectsArg
  -- line 143 (a plain geometry never trips the line 61-67 dispatch)
  let counties_gdf := countiesFromGeom inter counties states geom
  let rows := gdfRows counties_gdf
  match datetime with
  | [] =>
      -- `years_range` was never assigned: NameError at the first
      -- inner-loop entry; with no rows the loop body never runs
      if rows.isEmpty then .ok ⟨[], [], []⟩ else .error .nameError
  | [_] => .error .indexError
  | d0 :: d1 :: _ =>
      .ok (queryLoop rows (yearsList d0 d1) filter_params)

/-- The value of `query_list` at `return` (line 182): each stored
reference read back from the final heap. -/
def create_query_list {G : Type} (inter : G → G → Bool)
    (box : List Int → G) (usBox : G) (counties : List (CountyRow G))
    (states : List (StateRow G)) (bbox : List Int)
    (datetime : List Int) (intersectsArg : Option G)
    (filter_params : Option Dict) : Except PyError (List Dict) :=
  (create_query_list_state inter box usBox counties states bbox datetime
      intersectsArg filter_params).map
    (fun s => s.qlist.map (fun r => s.heap.getD r []))

/-! ## `convert_results_to_gdf` (lines 184-223) and the fetch layer -/

/-- One record of the API response, a JSON object embedded as a dict. -/
abbrev Obs := Dict

/-- The `Union[dict, List[dict]]` argument of `convert_results_to_gdf`:
a dict (whose `"results"` key, when present, holds the record list), a
bare record list, or JSON `null` (Python `None`). -/
inductive ApiResponse where
  | dict : List (String × List Obs) → ApiResponse
  | list : List Obs → ApiResponse
  | null : ApiResponse
  deriving DecidableEq, Repr

/-- A GeoDataFrame as far as the claims observe it: the empty frame
constructed as `gpd.GeoDataFrame(columns=[...])` with its column list. -/
inductive Gdf where
  | emptyWithCols : List String → Gdf
  deriving DecidableEq, Repr

/-- `convert_results_to_gdf` (lines 184-223).  A dict input is replaced by
`response.get("results", [])` (line 195); `None` fails at `len(response)`
(line 199) with `TypeError`.  An empty record list returns the empty
frame with columns `geometry` and `id` (line 200).  A non-empty record
list never returns normally: `set_index("id")` (line 218) raises
`KeyError` when no record carries an `id` key, `gdf["UTC"]` (line 221)
raises `KeyError` when no record carries a `UTC` key, and otherwise the
call `_datetime.strptime(x, format=...)` (line 221) raises `TypeError`,
because `datetime.strptime` accepts no keyword arguments. -/
def convert_results_to_gdf (response : ApiResponse) : Except PyError Gdf :=
  match response with
  | .null => .error .typeError
  | .dict d =>
      convertList (((d.find? (fun p => p.1 = "results")).map
        (fun p => p.2)).getD [])
  | .list l => convertList l
where
  convertList (l : List Obs) : Except PyError Gdf :=
    if l.isEmpty then .ok (.emptyWithCols ["geometry", "id"])
    else if ¬ l.any (fun o => o.any (fun p => p.1 = "id")) then
      .error .keyError
    else if ¬ l.any (fun o => o.any (fun p => p.1 = "UTC")) then
      .error .keyError
    else .error .typeError

/-- An HTTP response as `request_features` observes it: the status code
and the parsed JSON body; `none` stands for a body `response.json()`
cannot parse (e.g. an empty body). -/
structure HttpResponse where
  status_code : Int
  body : Option ApiResponse
  deriving DecidableEq, Repr

/-- Attribute lookup of `parse_input_params` on the provider object:
`class APIWrapperRemoteProvider` (lines 40-47) has no base class and the
module defines no method of that name, so the lookup at line 232 finds
nothing. -/
def parse_input_params : Option (Dict → Dict) := none

/-- `request_features` (lines 225-254).  `http` is the outbound transport
(`requests.get`, line 236) as a function from the assembled parameters to
a response.  The attribute access `self.parse_input_params` (line 232)
raises `AttributeError` before the transport is ever consulted.  Were it
defined: a non-200 status logs and returns the empty frame (lines
250-252); a 200 status parses the body (`response.json()`, line 241 —
`jsonError` when unparseable) and hands it to `convert_results_to_gdf`;
the `if not res` branch (lines 244-246) builds an empty frame that
line 248 immediately overwrites, so it is behaviorally dead. -/
def request_features (kwargs : Dict) (http : Dict → HttpResponse) :
    Except PyError Gdf :=
  match parse_input_params with
  | none => .error .attributeError
  | some parse =>
      let api_params := parse kwargs
      let response := http api_params
      if response.status_code = 200 then
        match response.body with
        | none => .error .jsonError
        | some res => convert_results_to_gdf res
      else .ok (.emptyWithCols ["geometry", "id"])

/-! ## `search` (lines 256-299) -/

/-- `self.max_page_size` (line 43). -/
def max_page_size : Int := 50000

/-- The pagination block of `search` (lines 267-278): compute the
effective `(page, page_size)` from `kwargs.get("limit", None)` and the
`pagination` dict (embedded as an association list; `if pagination:` is
truthy exactly when it is non-empty).  `page` becomes `None` when a
pagination dict without a `"page"` key is supplied
(`pagination.get("page", None)`, line 277). -/
def search_pagination (limit : Option Int)
    (pagination : List (String × Int)) : Option Int × Int :=
  let limit := if limit = some 0 then none else limit
  let page_size : Int :=
    match limit with
    | none => max_page_size
    | some l => if l ≤ max_page_size then l else max_page_size
  if ¬ pagination.isEmpty then
    ((pagination.find? (fun p => p.1 = "page")).map (fun p => p.2),
      ((pagination.find? (fun p => p.1 = "page_size")).map
        (fun p => p.2)).getD max_page_size)
  else (some 1, page_size)

/-- The provider-properties block of `search` (lines 283-292): fold
`source_desc` (default `"SURVEY"`) and an optional `statisticcat_desc`
into the outbound kwargs when `provider_properties` is truthy. -/
def applyProviderProperties (provider_properties : List (String × String))
    (kwargs : Dict) : Dict :=
  if provider_properties.isEmpty then kwargs
  else
    let source_desc :=
      ((provider_properties.find? (fun p => p.1 = "source_desc")).map
        (fun p => p.2)).getD "SURVEY"
    let kwargs := dictSet kwargs "source_desc" (.str source_desc)
    match provider_properties.find? (fun p => p.1 = "statisticcat_desc") with
    | some p => dictSet kwargs "statisticcat_desc" (.str p.2)
    | none => kwargs

/-- `search` (lines 256-299): resolve pagination, merge provider
properties, call `request_features(page=page, page_size=page_size,
**kwargs)`, and return the frame with the continuation
`{"page": page + 1, "page_size": page_size}`.  `page + 1` on a `None`
page (line 297) would raise `TypeError`. -/
def search (limit : Option Int) (pagination : List (String × Int))
    (provider_properties : List (String × String)) (kwargs : Dict)
    (http : Dict → HttpResponse) :
    Except PyError (Gdf × Int × Int) :=
  let pg := search_pagination limit pagination
  let kwargs := applyProviderProperties provider_properties kwargs
  let kwargs := dictSet kwargs "page"
    (match pg.1 with | some p => .int p | none => .null)
  let kwargs := dictSet kwargs "page_size" (.int pg.2)
  match request_features kwargs http with
  | .error e => .error e
  | .ok gdf =>
      match pg.1 with
      | some p => .ok (gdf, p + 1, pg.2)
      | none => .error .typeError

/-! ## Helper lemmas about the sort and the join -/

theorem natListLe_total : ∀ as bs : List Nat,
    natListLe as bs = true ∨ natListLe bs as = true := by
  intro as
  induction as with
  | nil => intro bs; left; rfl
  | cons a as ih =>
    intro bs
    match bs with
    | [] => right; rfl
    | b :: bs =>
      by_cases hab : a < b
      · left; simp [natListLe, hab]
      · by_cases hba : b < a
        · right; simp [natListLe, hba]
        · rcases ih bs with h | h
          · left; simp [natListLe, hab, hba, h]
          · right; simp [natListLe, hab, hba, h]

theorem natListLe_trans : ∀ as bs cs : List Nat,
    natListLe as bs = true → natListLe bs cs = true →
    natListLe as cs = true := by
  intro as
  induction as with
  | nil => intro bs cs _ _; rfl
  | cons a as ih =>
    intro bs cs h1 h2
    match bs, cs with
    | [], _ => simp [natListLe] at h1
    | b :: bs, [] => simp [natListLe] at h2
    | b :: bs, c :: cs =>
      simp only [natListLe] at h1 h2 ⊢
      by_cases hab : a < b
      · by_cases hbc : b < c
        · simp [lt_trans hab hbc]
        · by_cases hcb : c < b
          · simp [hbc, hcb] at h2
          · have hac : a < c := by omega
            simp [hac]
      · by_cases hba : b < a
        · simp [hab, hba] at h1
        · have hab' : a = b := by omega
          subst hab'
          simp only [hab, if_neg, lt_irrefl, if_false] at h1
          by_cases hbc : a < c
          · simp [hbc]
          · by_cases hcb : c < a
            · simp [hbc, hcb] at h2
            · simp only [hbc, hcb, if_false] at h2 ⊢
              exact ih bs cs h1 h2

theorem strLeB_total (a b : String) :
    strLeB a b = true ∨ strLeB b a = true :=
  natListLe_total _ _

theorem strLeB_trans {a b c : String} (h1 : strLeB a b = true)
    (h2 : strLeB b c = true) : strLeB a c = true :=
  natListLe_trans _ _ _ h1 h2

theorem mem_insertByKey {α : Type} (k : α → String) (a x : α) :
    ∀ l : List α, (x ∈ insertByKey k a l ↔ x = a ∨ x ∈ l) := by
  intro l
  induction l with
  | nil => simp [insertByKey]
  | cons b t ih =>
    simp only [insertByKey]
    by_cases h : strLeB (k a) (k b) = true
    · simp only [if_pos h, List.mem_cons]
    · simp only [if_neg h, List.mem_cons, ih]
      tauto

theorem mem_sortByKey {α : Type} (k : α → String) (x : α) :
    ∀ l : List α, (x ∈ sortByKey k l ↔ x ∈ l) := by
  intro l
  induction l with
  | nil => simp [sortByKey]
  | cons a t ih =>
    simp only [sortByKey, mem_insertByKey, ih, List.mem_cons]

theorem pairwise_insertByKey {α : Type} (k : α → String) (a : α) :
    ∀ l : List α,
    l.Pairwise (fun x y => strLeB (k x) (k y) = true) →
    (insertByKey k a l).Pairwise (fun x y => strLeB (k x) (k y) = true) := by
  intro l
  induction l with
  | nil => intro _; simp [insertByKey]
  | cons b t ih =>
    intro h
    rw [List.pairwise_cons] at h
    obtain ⟨hb, ht⟩ := h
    rw [insertByKey]
    by_cases hab : strLeB (k a) (k b) = true
    · rw [if_pos hab, List.pairwise_cons]
      refine ⟨?_, List.pairwise_cons.mpr ⟨hb, ht⟩⟩
      intro x hx
      rcases List.mem_cons.mp hx with rfl | hx
      · exact hab
      · exact strLeB_trans hab (hb x hx)
    · rw [if_neg hab, List.pairwise_cons]
      have hba : strLeB (k b) (k a) = true :=
        (strLeB_total (k a) (k b)).resolve_left hab
      refine ⟨?_, ih ht⟩
      intro x hx
      rcases (mem_insertByKey k a x t).mp hx with rfl | hx
      · exact hba
      · exact hb x hx

theorem pairwise_sortByKey {α : Type} (k : α → String) :
    ∀ l : List α,
    (sortByKey k l).Pairwise (fun x y => strLeB (k x) (k y) = true) := by
  intro l
  induction l with
  | nil => simp [sortByKey]
  | cons a t ih => exact pairwise_insertByKey k a _ ih

theorem mem_joinOnStatefp {G : Type} {cdf : List (CountyRow G)}
    {sdf : List (StateRow G)} {r : OutRow G}
    (h : r ∈ joinOnStatefp cdf sdf) :
    ∃ c ∈ cdf, r.county_name = c.NAME ∧ r.COUNTYNS = c.COUNTYNS ∧
      r.geom = c.geom ∧
      ((r.state_name = none ∧
          sdf.filter (fun s => s.STATEFP = c.STATEFP) = []) ∨
        ∃ s ∈ sdf, s.STATEFP = c.STATEFP ∧ r.state_name = some s.NAME) := by
  rw [joinOnStatefp, List.mem_flatMap] at h
  obtain ⟨c, hc, hr⟩ := h
  refine ⟨c, hc, ?_⟩
  cases hms : sdf.filter (fun s => s.STATEFP = c.STATEFP) with
  | nil =>
    rw [hms] at hr
    simp only [List.mem_singleton] at hr
    subst hr
    exact ⟨rfl, rfl, rfl, Or.inl ⟨rfl, rfl⟩⟩
  | cons s0 tl =>
    rw [hms] at hr
    rw [List.mem_map] at hr
    obtain ⟨s, hs, hr⟩ := hr
    subst hr
    have hsmem : s ∈ sdf.filter (fun s => s.STATEFP = c.STATEFP) := by
      rw [hms]; exact hs
    rw [List.mem_filter] at hsmem
    refine ⟨rfl, rfl, rfl, Or.inr ⟨s, hsmem.1, ?_, rfl⟩⟩
    exact of_decide_eq_true hsmem.2

theorem exists_mem_joinOnStatefp {G : Type} {cdf : List (CountyRow G)}
    (sdf : List (StateRow G)) {c : CountyRow G} (h : c ∈ cdf) :
    ∃ r ∈ joinOnStatefp cdf sdf, r.county_name = c.NAME ∧
      r.COUNTYNS = c.COUNTYNS ∧ r.geom = c.geom := by
  cases hms : sdf.filter (fun s => s.STATEFP = c.STATEFP) with
  | nil =>
    refine ⟨⟨c.NAME, none, c.geom, c.COUNTYNS⟩, ?_, rfl, rfl, rfl⟩
    rw [joinOnStatefp, List.mem_flatMap]
    exact ⟨c, h, by simp [hms]⟩
  | cons s0 tl =>
    refine ⟨⟨c.NAME, some s0.NAME, c.geom, c.COUNTYNS⟩, ?_, rfl, rfl, rfl⟩
    rw [joinOnStatefp, List.mem_flatMap]
    exact ⟨c, h, by simp [hms]⟩

theorem countiesFromGeom_rows {G : Type} (inter : G → G → Bool)
    (counties : List (CountyRow G)) (states : List (StateRow G)) (g : G) :
    resultRows (countiesFromGeom inter counties states g) =
      if (countiesIntersects inter counties g).isEmpty then []
      else sortByKey (fun r => r.COUNTYNS)
        (joinOnStatefp
          ((countiesIntersects inter counties g).map
            (fun c => { c with STATEFP := pyStrip c.STATEFP }))
          ((statesIntersects inter states g).map
            (fun s => { s with STATEFP := pyStrip s.STATEFP }))) := by
  rw [countiesFromGeom]
  by_cases h : (countiesIntersects inter counties g).isEmpty
  · simp [h, resultRows]
  · simp [h, resultRows]

/-! ## Concrete fixtures used by witnesses and counterexample evaluations -/

/-- Geometry model for concrete runs: every geometry intersects. -/
def itW : Nat → Nat → Bool := fun _ _ => true

/-- Geometry model for concrete runs: no geometry intersects. -/
def itN : Nat → Nat → Bool := fun _ _ => false

/-- Trivial bbox-to-geometry constructor for concrete runs. -/
def bxW : List Int → Nat := fun _ => 0

/-- One-county fixture table (padded `STATEFP`, as in the source data). -/
def csW : List (CountyRow Nat) := [⟨"01 ", "Autauga", "00161526", 7⟩]

/-- Two-county fixture table. -/
def csW2 : List (CountyRow Nat) :=
  [⟨"01 ", "Autauga", "00161526", 7⟩, ⟨"01", "Baldwin", "00161527", 8⟩]

/-- One-state fixture table. -/
def ssW : List (StateRow Nat) := [⟨"01", "Alabama", 3⟩]

/-! ## Claims -/

/-- C3: for every list or tuple whose length is not 4, and for every input
that is neither a list, a tuple, nor a geometry, `get_counties_from_geometry`
raises `ValueError` synchronously. -/
theorem claim_C3_invalid_input_valueError {G : Type} (inter : G → G → Bool)
    (box : List Int → G) (counties : List (CountyRow G))
    (states : List (StateRow G)) :
    (∀ l : List Int, l.length ≠ 4 →
      get_counties_from_geometry inter box counties states
        (.geomLike (.list l)) = .error .valueError ∧
      get_counties_from_geometry inter box counties states
        (.geomLike (.tuple l)) = .error .valueError) ∧
    get_counties_from_geometry inter box counties states .other =
      .error .valueError := by
  refine ⟨fun l hl => ⟨?_, ?_⟩, rfl⟩ <;>
    simp [get_counties_from_geometry, hl]

/-- Witness for C3 at the 3-element list `[0, 0, 0]`. -/
theorem claim_C3_witness :
    (([0, 0, 0] : List Int).length ≠ 4) ∧
    get_counties_from_geometry itW bxW csW ssW
      (.geomLike (.list [0, 0, 0])) = .error .valueError :=
  ⟨by decide,
    ((claim_C3_invalid_input_valueError itW bxW csW ssW).1 [0, 0, 0]
      (by decide)).1⟩

/-- C4: a valid geometry (or 4-element bbox) that intersects no county in
the boundary table yields the empty result table, not an error. -/
theorem claim_C4_no_intersection_empty {G : Type} (inter : G → G → Bool)
    (box : List Int → G) (counties : List (CountyRow G))
    (states : List (StateRow G)) :
    (∀ g : G, countiesIntersects inter counties g = [] →
      get_counties_from_geometry inter box counties states
        (.geomLike (.geom g)) = .ok (.emptyTable ["geometry", "id"])) ∧
    (∀ l : List Int, l.length = 4 →
      countiesIntersects inter counties (box l) = [] →
      get_counties_from_geometry inter box counties states
        (.geomLike (.list l)) = .ok (.emptyTable ["geometry", "id"])) := by
  constructor
  · intro g hg
    simp [get_counties_from_geometry, countiesFromGeom, hg]
  · intro l hl hg
    have hne : ¬ l.length ≠ 4 := by omega
    simp [get_counties_from_geometry, hne, countiesFromGeom, hg]

/-- Witness for C4 with a never-intersecting geometry model. -/
theorem claim_C4_witness :
    countiesIntersects itN csW (0 : Nat) = [] ∧
    get_counties_from_geometry itN bxW csW ssW (.geomLike (.geom 0)) =
      .ok (.emptyTable ["geometry", "id"]) :=
  ⟨by decide, (claim_C4_no_intersection_empty itN bxW csW ssW).1 0 (by decide)⟩

/-- C1 (counter-evaluation): with one resolved county per state entry and
the year range 2020-2021, `create_query_list` does NOT return one distinct
parameter set per (county, year) pair with strictly increasing
`query_index`.  The same dict object is appended once per year and then
mutated in place, so the returned list reads back the LAST year and last
index for every entry of a county: years `[2021, 2021, 2021, 2021]` and
indices `[1, 1, 3, 3]` instead of years `[2020, 2021, 2020, 2021]` and
indices `[0, 1, 2, 3]`. -/
theorem claim_C1_aliased_query_dicts :
    (create_query_list itW bxW 0 csW2 ssW [0, 0, 0, 0] [2020, 2021]
        none none).map
      (fun L => L.map (fun d => (dictGet d "year", dictGet d "query_index"))) =
    .ok [(some (.int 2021), some (.int 1)), (some (.int 2021), some (.int 1)),
      (some (.int 2021), some (.int 3)), (some (.int 2021), some (.int 3))] := by
  rfl

/-- C2 (counter-evaluation): the first appended parameter set had
`year = 2020` at the moment of its append, but the same entry read back
from the returned list carries `year = 2021`: a field other than the
positional index was mutated after the set was appended. -/
theorem claim_C2_year_mutated_after_append :
    (create_query_list_state itW bxW 0 csW ssW [0, 0, 0, 0] [2020, 2021]
        none none).map
      (fun s => (dictGet (s.snaps.getD 0 []) "year",
        dictGet (s.heap.getD (s.qlist.getD 0 0) []) "year")) =
    .ok (some (.int 2020), some (.int 2021)) := by
  rfl

/-- C10: when `datetime` is empty (or absent) and at least one county is
resolved from the geometry, `create_query_list` raises `NameError`,
because `years_range` is only assigned inside the `if datetime:` branch. -/
theorem claim_C10_missing_datetime_nameError {G : Type}
    (inter : G → G → Bool) (box : List Int → G) (usBox : G)
    (counties : List (CountyRow G)) (states : List (StateRow G))
    (bbox : List Int) (intersectsArg : Option G)
    (filter_params : Option Dict)
    (h : gdfRows (countiesFromGeom inter counties states
      (selectGeom box usBox bbox intersectsArg)) ≠ []) :
    create_query_list inter box usBox counties states bbox []
      intersectsArg filter_params = .error .nameError := by
  rw [create_query_list, create_query_list_state]
  cases hl : gdfRows (countiesFromGeom inter counties states
      (selectGeom box usBox bbox intersectsArg)) with
  | nil => exact absurd hl h
  | cons a t => simp [hl, Except.map]

/-- Witness for C10: one resolved county, empty datetime. -/
theorem claim_C10_witness :
    gdfRows (countiesFromGeom itW csW ssW (selectGeom bxW 0 [0, 0, 0, 0]
      none)) ≠ [] ∧
    create_query_list itW bxW 0 csW ssW [0, 0, 0, 0] [] none none =
      .error .nameError :=
  ⟨by decide,
    claim_C10_missing_datetime_nameError itW bxW 0 csW ssW [0, 0, 0, 0]
      none none (by decide)⟩

/-- C9: for every input, `request_features` fails with `AttributeError`
without consulting the HTTP transport (the result is the same for every
`http`), because `self.parse_input_params` is not defined anywhere on
`APIWrapperRemoteProvider`; consequently `search` never returns a feature
table normally. -/
theorem claim_C9_parse_input_params_missing :
    (∀ (kwargs : Dict) (http : Dict → HttpResponse),
      request_features kwargs http = .error .attributeError) ∧
    (∀ (limit : Option Int) (pagination : List (String × Int))
      (provider_properties : List (String × String)) (kwargs : Dict)
      (http : Dict → HttpResponse),
      search limit pagination provider_properties kwargs http =
        .error .attributeError) := by
  exact ⟨fun _ _ => rfl, fun _ _ _ _ _ => rfl⟩

/-- C6 (counter-evaluation): with a transport that would answer status 500,
`request_features` does not log-and-return an empty feature table; it
raises `AttributeError` before the HTTP request is made. -/
theorem claim_C6_error_handling_unreachable :
    request_features [] (fun _ => ⟨500, none⟩) = .error .attributeError ∧
    (Except.error PyError.attributeError ≠
      (.ok (Gdf.emptyWithCols ["geometry", "id"]) : Except PyError Gdf)) := by
  exact ⟨rfl, fun h => Except.noConfusion h⟩

/-- C7: a dict response whose `"results"` list is empty (or absent), and a
bare empty list, convert to the empty feature table with columns exactly
`geometry` and `id`. -/
theorem claim_C7_empty_results_empty_gdf :
    (∀ d : List (String × List Obs),
      (((d.find? (fun p => p.1 = "results")).map (fun p => p.2)).getD [] =
        ([] : List Obs)) →
      convert_results_to_gdf (.dict d) =
        .ok (.emptyWithCols ["geometry", "id"])) ∧
    convert_results_to_gdf (.list []) =
      .ok (.emptyWithCols ["geometry", "id"]) := by
  constructor
  · intro d hd
    rw [convert_results_to_gdf, hd]
    rfl
  · rfl

/-- Witness for C7 at the literal response `{"results": []}`. -/
theorem claim_C7_witness :
    ((([("results", ([] : List Obs))].find? (fun p => p.1 = "results")).map
      (fun p => p.2)).getD [] = ([] : List Obs)) ∧
    convert_results_to_gdf (.dict [("results", [])]) =
      .ok (.emptyWithCols ["geometry", "id"]) :=
  ⟨rfl, (claim_C7_empty_results_empty_gdf).1 [("results", [])] rfl⟩

/-- C8: a search call with `limit = 0` and no pagination override resolves
the effective page size to the configured maximum (50000), not to 0. -/
theorem claim_C8_limit_zero_max_page_size :
    search_pagination (some 0) [] = (some 1, max_page_size) ∧
    max_page_size = 50000 := by
  exact ⟨rfl, rfl⟩

/-- C5: for every valid 4-element bounding box, the region resolver's rows
are exactly the counties whose stored polygon intersects the box (no
non-intersecting county appears, and every intersecting county appears),
each row is annotated with the name of a state whose whitespace-trimmed
code matches the county's whitespace-trimmed code and which intersects the
box, and the rows are sorted by `COUNTYNS`.  The hypothesis `hstate`
states the geometric fact that a county's containing state intersects
whatever the county intersects and shares its (trimmed) code — true of
the real boundary tables, where counties lie inside their states. -/
theorem claim_C5_resolver_join_sorted {G : Type} (inter : G → G → Bool)
    (box : List Int → G) (counties : List (CountyRow G))
    (states : List (StateRow G)) (l : List Int) (hl : l.length = 4)
    (hstate : ∀ c ∈ counties, inter c.geom (box l) = true →
      ∃ s ∈ states, inter s.geom (box l) = true ∧
        pyStrip s.STATEFP = pyStrip c.STATEFP) :
    ∃ rows : List (OutRow G),
      (get_counties_from_geometry inter box counties states
        (.geomLike (.list l))).map resultRows = .ok rows ∧
      (∀ r ∈ rows, ∃ c ∈ counties, inter c.geom (box l) = true ∧
        r.county_name = c.NAME ∧ r.COUNTYNS = c.COUNTYNS ∧ r.geom = c.geom ∧
        ∃ s ∈ states, inter s.geom (box l) = true ∧
          pyStrip s.STATEFP = pyStrip c.STATEFP ∧
          r.state_name = some s.NAME) ∧
      (∀ c ∈ counties, inter c.geom (box l) = true →
        ∃ r ∈ rows, r.county_name = c.NAME ∧ r.COUNTYNS = c.COUNTYNS ∧
          r.geom = c.geom) ∧
      rows.Pairwise (fun a b => strLeB a.COUNTYNS b.COUNTYNS = true) := by
  have hne : ¬ l.length ≠ 4 := by omega
  have hred : (get_counties_from_geometry inter box counties states
      (.geomLike (.list l))).map resultRows =
      .ok (resultRows (countiesFromGeom inter counties states (box l))) := by
    simp [get_counties_from_geometry, hne, Except.map]
  refine ⟨resultRows (countiesFromGeom inter counties states (box l)),
    hred, ?_, ?_, ?_⟩
  · -- soundness: every row comes from an intersecting county, annotated
    -- with a matching intersecting state
    intro r hr
    rw [countiesFromGeom_rows] at hr
    by_cases hemp : (countiesIntersects inter counties (box l)).isEmpty
    · rw [if_pos hemp] at hr
      exact absurd hr (List.not_mem_nil r)
    · rw [if_neg hemp] at hr
      have hr' := (mem_sortByKey (fun r : OutRow G => r.COUNTYNS) r _).mp hr
      obtain ⟨c', hc', hname, hcn, hgeom, hst⟩ := mem_joinOnStatefp hr'
      rw [List.mem_map] at hc'
      obtain ⟨c0, hc0, rfl⟩ := hc'
      rw [countiesIntersects, List.mem_filter] at hc0
      obtain ⟨hc0mem, hc0int⟩ := hc0
      refine ⟨c0, hc0mem, hc0int, hname, hcn, hgeom, ?_⟩
      rcases hst with ⟨_, hfil⟩ | ⟨s', hs', heq, hsome⟩
      · exfalso
        obtain ⟨s0, hs0, hs0int, hs0eq⟩ := hstate c0 hc0mem hc0int
        have hs0' : ({ s0 with STATEFP := pyStrip s0.STATEFP } : StateRow G) ∈
            (statesIntersects inter states (box l)).map
              (fun s => { s with STATEFP := pyStrip s.STATEFP }) := by
          rw [List.mem_map]
          refine ⟨s0, ?_, rfl⟩
          rw [statesIntersects, List.mem_filter]
          exact ⟨hs0, hs0int⟩
        have hmemf : ({ s0 with STATEFP := pyStrip s0.STATEFP } : StateRow G) ∈
            ((statesIntersects inter states (box l)).map
              (fun s => { s with STATEFP := pyStrip s.STATEFP })).filter
              (fun s => s.STATEFP =
                ({ c0 with STATEFP := pyStrip c0.STATEFP } :
                  CountyRow G).STATEFP) := by
          rw [List.mem_filter]
          exact ⟨hs0', decide_eq_true hs0eq⟩
        rw [hfil] at hmemf
        exact absurd hmemf (List.not_mem_nil _)
      · rw [List.mem_map] at hs'
        obtain ⟨s0, hs0, rfl⟩ := hs'
        rw [statesIntersects, List.mem_filter] at hs0
        exact ⟨s0, hs0.1, hs0.2, heq, hsome⟩
  · -- completeness: every intersecting county contributes a row
    intro c hc hint
    rw [countiesFromGeom_rows]
    have hc0 : c ∈ countiesIntersects inter counties (box l) := by
      rw [countiesIntersects, List.mem_filter]
      exact ⟨hc, hint⟩
    by_cases hemp : (countiesIntersects inter counties (box l)).isEmpty
    · rw [List.isEmpty_iff] at hemp
      rw [hemp] at hc0
      exact absurd hc0 (List.not_mem_nil c)
    · rw [if_neg hemp]
      have hc' : ({ c with STATEFP := pyStrip c.STATEFP } : CountyRow G) ∈
          (countiesIntersects inter counties (box l)).map
            (fun c => { c with STATEFP := pyStrip c.STATEFP }) :=
        List.mem_map.mpr ⟨c, hc0, rfl⟩
      obtain ⟨r, hrj, h1, h2, h3⟩ := exists_mem_joinOnStatefp
        ((statesIntersects inter states (box l)).map
          (fun s => { s with STATEFP := pyStrip s.STATEFP })) hc'
      exact ⟨r, (mem_sortByKey (fun r : OutRow G => r.COUNTYNS) r _).mpr hrj,
        h1, h2, h3⟩
  · -- sortedness by COUNTYNS
    rw [countiesFromGeom_rows]
    by_cases hemp : (countiesIntersects inter counties (box l)).isEmpty
    · rw [if_pos hemp]
      exact List.Pairwise.nil
    · rw [if_neg hemp]
      exact pairwise_sortByKey (fun r : OutRow G => r.COUNTYNS) _

/-- Witness for C5 at the bbox `[0, 0, 0, 0]` over the one-county,
one-state fixture with the always-intersecting geometry model. -/
theorem claim_C5_witness :
    (([0, 0, 0, 0] : List Int).length = 4) ∧
    (∀ c ∈ csW, itW c.geom (bxW [0, 0, 0, 0]) = true →
      ∃ s ∈ ssW, itW s.geom (bxW [0, 0, 0, 0]) = true ∧
        pyStrip s.STATEFP = pyStrip c.STATEFP) ∧
    ∃ rows : List (OutRow Nat),
      (get_counties_from_geometry itW bxW csW ssW
        (.geomLike (.list [0, 0, 0, 0]))).map resultRows = .ok rows ∧
      (∀ r ∈ rows, ∃ c ∈ csW, itW c.geom (bxW [0, 0, 0, 0]) = true ∧
        r.county_name = c.NAME ∧ r.COUNTYNS = c.COUNTYNS ∧ r.geom = c.geom ∧
        ∃ s ∈ ssW, itW s.geom (bxW [0, 0, 0, 0]) = true ∧
          pyStrip s.STATEFP = pyStrip c.STATEFP ∧
          r.state_name = some s.NAME) ∧
      (∀ c ∈ csW, itW c.geom (bxW [0, 0, 0, 0]) = true →
        ∃ r ∈ rows, r.county_name = c.NAME ∧ r.COUNTYNS = c.COUNTYNS ∧
          r.geom = c.geom) ∧
      rows.Pairwise (fun a b => strLeB a.COUNTYNS b.COUNTYNS = true) :=
  ⟨by decide, by decide,
    claim_C5_resolver_join_sorted itW bxW csW ssW [0, 0, 0, 0]
      (by decide) (by decide)⟩

end BosonProvider
